/-
Verification of the DetMeter detection-coverage analysis engine
(`src/detmeter/detmeter_svc.py`) against its natural-language specification.

Shallow embedding conventions:
* Python `datetime` timestamps are modelled as exact rationals (seconds).
* Python `float` arithmetic is modelled as exact rational arithmetic;
  `round(x, 2)` is modelled as round-half-to-even on rationals.
* Python dicts with insertion order are modelled as association lists.
* `random` (Mersenne-Twister seeded with `hash(<string>)`) is modelled as an
  abstract pseudo-random stream: a function from the seed string and the index
  of the draw to the drawn value.  The string hash is treated as an injective
  fingerprint, so the seed string itself indexes the stream.
* `asyncio` fan-out is modelled as a sequential fold over the enabled sources
  (the analysed properties do not depend on the interleaving).
* Optional report keys (keys that some code paths omit from the returned
  dict) are modelled as `Option` fields, `none` meaning "key absent".
-/
import Mathlib

namespace DetMeter

/-! ## Data model (§3 of the spec, mirroring the Python objects consumed) -/

/-- An ability attached to a link: carries the MITRE technique id
(`None`/absent is modelled as `none`), name, description and tactic
(`getattr(..., 'tactic', 'unknown')`). -/
structure Ability where
  technique_id : Option String
  name : String
  description : String
  tactic : String
deriving DecidableEq

/-- One execution record in an operation's chain.  `decide_ts` models
`link.decide` (an optional timestamp), `status` models
`getattr(link, 'status', -1)`. -/
structure Link where
  ability : Option Ability
  decide_ts : Option ℚ
  status : Int
deriving DecidableEq

/-- An operation as returned by the external operation store. -/
structure Operation where
  id : String
  name : String
  start : Option ℚ
  finish : Option ℚ
  chain : List Link
deriving DecidableEq

/-- One recorded execution inside a technique record (the dict appended to
`techniques[base]['executions']`). -/
structure Execution where
  timestamp : Option ℚ
  ability : String
  status : Int
deriving DecidableEq

/-- A derived technique record (`techniques[base_tech_id]` in
`_extract_techniques_with_details`). -/
structure TechDetail where
  technique_id : String
  full_id : String
  name : String
  tactics : List String
  count : Nat
  ability_used : String
  ability_description : String
  tactic : String
  executions : List Execution
deriving DecidableEq

/-! ## Technique-id normalization

`base_tech_id = re.sub(r'\.\d+$', '', tech_id)`: remove a trailing group of
one or more (ASCII) digits together with the dot immediately before it. -/

/-- Strip a trailing `.digits` sub-technique suffix from a technique id,
exactly as `re.sub(r'\.\d+$', '', tech_id)` does: if the string ends in a dot
followed by one or more digits, drop that dot and those digits. -/
def stripSubTechnique (s : String) : String :=
  match s.toList.reverse.takeWhile (fun c => c.isDigit),
        s.toList.reverse.dropWhile (fun c => c.isDigit) with
  | [], _ => s
  | _ :: _, c :: tail => if c = '.' then String.mk tail.reverse else s
  | _ :: _, [] => s

/-- The static MITRE technique metadata table (`_load_mitre_matrix`). -/
def mitreTechniques : List (String × String × List String) :=
  [ ("T1059", ("Command and Scripting Interpreter", ["execution"])),
    ("T1053", ("Scheduled Task/Job", ["persistence", "execution"])),
    ("T1078", ("Valid Accounts", ["defense-evasion", "persistence", "privilege-escalation"])),
    ("T1082", ("System Information Discovery", ["discovery"])),
    ("T1518", ("Software Discovery", ["discovery"])),
    ("T1566", ("Phishing", ["initial-access"])),
    ("T1547", ("Boot or Logon Autostart Execution", ["persistence", "privilege-escalation"])),
    ("T1110", ("Brute Force", ["credential-access"])),
    ("T1003", ("OS Credential Dumping", ["credential-access"])),
    ("T1047", ("Windows Management Instrumentation", ["execution"])) ]

/-- `self.mitre_techniques.get(base_tech_id, {'name': 'Unknown Technique',
'tactics': ['unknown']})`. -/
def mitreLookup (base : String) : String × List String :=
  (mitreTechniques.lookup base).getD ("Unknown Technique", ["unknown"])

/-! ## Technique extraction (`_extract_techniques_with_details`) -/

/-- The normalized technique id a link contributes, or `none` when the link
is skipped (`link.ability` absent, technique id absent, or empty). -/
def linkBase (link : Link) : Option String :=
  match link.ability with
  | none => none
  | some ab =>
    match ab.technique_id with
    | none => none
    | some tid => if tid = "" then none else some (stripSubTechnique tid)

/-- The execution dict recorded for a link. -/
def execOf (ab : Ability) (link : Link) : Execution :=
  { timestamp := link.decide_ts, ability := ab.name, status := link.status }

/-- The fresh technique record created on first occurrence of a base id. -/
def newDetail (base tid : String) (ab : Ability) (link : Link) : TechDetail :=
  let mi := mitreLookup base
  { technique_id := base
    full_id := tid
    name := mi.1
    tactics := mi.2
    count := 1
    ability_used := ab.name
    ability_description := ab.description
    tactic := ab.tactic
    executions := [execOf ab link] }

/-- Insert-or-increment into the technique association list: an existing
entry gets its count bumped and the execution appended; a new base id is
appended at the end (Python dict insertion order). -/
def bumpTech (techs : List (String × TechDetail)) (base : String)
    (fresh : TechDetail) (e : Execution) : List (String × TechDetail) :=
  match techs with
  | [] => [(base, fresh)]
  | (k, r) :: rest =>
    if k = base then
      (k, { r with count := r.count + 1, executions := r.executions ++ [e] }) :: rest
    else
      (k, r) :: bumpTech rest base fresh e

/-- One step of the extraction loop over `operation.chain`. -/
def extractStep (techs : List (String × TechDetail)) (link : Link) :
    List (String × TechDetail) :=
  match link.ability with
  | none => techs
  | some ab =>
    match ab.technique_id with
    | none => techs
    | some tid =>
      if tid = "" then techs
      else
        let base := stripSubTechnique tid
        bumpTech techs base (newDetail base tid ab link) (execOf ab link)

/-- `_extract_techniques_with_details`: fold the extraction step over the
operation's chain, starting from the empty dict. -/
def extractTechniques (op : Operation) : List (String × TechDetail) :=
  op.chain.foldl extractStep []

/-- First-match association lookup (Python `techniques[base]` /
`base in techniques`). -/
def lookupTech (techs : List (String × TechDetail)) (key : String) :
    Option TechDetail :=
  match techs with
  | [] => none
  | (k, r) :: rest => if k = key then some r else lookupTech rest key

/-- The count stored for a key, `0` when the key is absent. -/
def countOf (techs : List (String × TechDetail)) (key : String) : Nat :=
  match lookupTech techs key with
  | none => 0
  | some r => r.count

/-- Number of links in a chain contributing a given normalized base id. -/
def baseCount (links : List Link) (key : String) : Nat :=
  links.countP (fun l => decide (linkBase l = some key))

/-! ## String helpers -/

/-- Whether `needle` occurs at the head of `hay`. -/
def matchesAt : List Char → List Char → Bool
  | _, [] => true
  | [], _ :: _ => false
  | a :: as, b :: bs => a == b && matchesAt as bs

/-- Whether `needle` occurs anywhere inside `hay` (Python `needle in hay`). -/
def containsL : List Char → List Char → Bool
  | [], needle => needle.isEmpty
  | a :: t, needle => matchesAt (a :: t) needle || containsL t needle

/-- Python substring test `needle in hay` on strings. -/
def strContains (hay needle : String) : Bool :=
  containsL hay.toList needle.toList

/-- `sep.join(parts)`. -/
def joinSep (sep : String) : List String → String
  | [] => ""
  | [x] => x
  | x :: xs => x ++ sep ++ joinSep sep xs

/-- Python `int()` truncation toward zero of a (modelled-float) timestamp. -/
def pyInt (q : ℚ) : ℤ :=
  q.num / (q.den : ℤ)

/-! ## Pseudo-random stream abstraction

Python seeds the global Mersenne-Twister with `random.seed(hash(s))` for a
seed string `s` and then draws from it.  The stream is modelled abstractly:
`rand s k` is the value of the `k`-th `random.random()` call after seeding
with `s`, and `randInt s k lo hi` the value of a `randint(lo, hi)` call at
stream position `k`.  The string hash is treated as an injective fingerprint
of `s`. -/
structure PRNG where
  rand : String → Nat → ℚ
  randInt : String → Nat → Nat → Nat → Nat

/-- Per-source connection configuration (`siem_connections[name]`); an empty
string models an absent/empty field. -/
structure SiemConfig where
  type : String
  enabled : Bool
  api_endpoint : String
  token : String
  username : String := ""
  password : String := ""
deriving DecidableEq

/-- What a backend-specific query method returns on success. -/
structure BackendResult where
  detected_techniques : List String
  events_found : Nat
  first_event_time : Option ℚ := none
  last_event_time : Option ℚ := none
  details : List (String × String) := []
deriving DecidableEq

/-- Sequential draw-filter used by the per-backend query methods:
`[t for t in ids if random.random() > threshold]` — one draw is consumed per
element, element `i` is kept when draw `i` exceeds the threshold. -/
def drawFilter (rand : Nat → ℚ) (threshold : ℚ) : Nat → List String → List String
  | _, [] => []
  | i, t :: ts =>
    if threshold < rand i then t :: drawFilter rand threshold (i + 1) ts
    else drawFilter rand threshold (i + 1) ts

/-- `_query_splunk`: raises `ValueError("Splunk configuration incomplete")`
when the endpoint or token is missing; otherwise filters the technique ids
with threshold 0.3 against the stream seeded by `hash(endpoint)` and draws an
event multiplier from `randint(1, 5)`. -/
def querySplunk (prng : PRNG) (cfg : SiemConfig) (ids : List String)
    (st et : ℚ) : Except String BackendResult :=
  if cfg.api_endpoint = "" ∨ cfg.token = "" then
    .error "Splunk configuration incomplete"
  else
    let conds := joinSep " OR " (ids.map (fun t => "technique_id=\"" ++ t ++ "\""))
    let searchQuery := "search (" ++ conds ++ ")"
    let earliest := "earliest=" ++ toString (pyInt st)
    let latest := "latest=" ++ toString (pyInt et)
    let seed := cfg.api_endpoint
    let detected := drawFilter (prng.rand seed) (3/10) 0 ids
    let events := detected.length * prng.randInt seed ids.length 1 5
    .ok { detected_techniques := detected, events_found := events,
          details := [("query", searchQuery), ("earliest", earliest), ("latest", latest)] }

/-- `_query_arcsight`: threshold 0.4, `randint(1, 3)`, never raises. -/
def queryArcsight (prng : PRNG) (cfg : SiemConfig) (ids : List String)
    (_st _et : ℚ) : BackendResult :=
  let seed := cfg.api_endpoint
  let detected := drawFilter (prng.rand seed) (2/5) 0 ids
  let events := detected.length * prng.randInt seed ids.length 1 3
  { detected_techniques := detected, events_found := events,
    details := [("query_type", "ArcSight Active List or Event Query")] }

/-- `_query_elastic`: threshold 0.2, `randint(2, 6)`, never raises. -/
def queryElastic (prng : PRNG) (cfg : SiemConfig) (ids : List String)
    (_st _et : ℚ) : BackendResult :=
  let seed := cfg.api_endpoint
  let detected := drawFilter (prng.rand seed) (1/5) 0 ids
  let events := detected.length * prng.randInt seed ids.length 2 6
  { detected_techniques := detected, events_found := events,
    details := [("query_type", "Elasticsearch DSL Query")] }

/-- `_query_qradar`: threshold 0.5, `randint(1, 4)`, never raises. -/
def queryQradar (prng : PRNG) (cfg : SiemConfig) (ids : List String)
    (_st _et : ℚ) : BackendResult :=
  let seed := cfg.api_endpoint
  let detected := drawFilter (prng.rand seed) (1/2) 0 ids
  let events := detected.length * prng.randInt seed ids.length 1 4
  { detected_techniques := detected, events_found := events,
    details := [("query_type", "QRadar AQL Query")] }

/-! ## Simulation variant (`_simulate_siem_query`) -/

/-- Per-backend detection probabilities of the simulation variant. -/
def detectionProbabilities : List (String × ℚ) :=
  [("splunk", 7/10), ("arcsight", 13/20), ("elastic", 3/4), ("qradar", 3/5),
   ("test", 1/2)]

/-- The seed string of the simulation variant:
`f"{siem_name}_{start_time.timestamp()}"`.  It is built from the backend name
and the window start timestamp only. -/
def simulateSeed (siemName : String) (startTs : ℚ) : String :=
  siemName ++ "_" ++ toString startTs

/-- The per-technique keep decision of the simulation variant:
substring-matched technique classes get dedicated thresholds, anything else
the per-backend probability. -/
def simKeep (rand : Nat → ℚ) (prob : ℚ) (i : Nat) (t : String) : Bool :=
  if strContains t "T1059" then decide ((1 : ℚ)/10 < rand i)
  else if strContains t "T1078" then decide ((3 : ℚ)/10 < rand i)
  else if strContains t "T1082" then decide ((3 : ℚ)/20 < rand i)
  else decide (1 - prob < rand i)

/-- Per-technique draw filter of the simulation variant.  One draw is
consumed per technique. -/
def simDrawFilter (rand : Nat → ℚ) (prob : ℚ) : Nat → List String → List String
  | _, [] => []
  | i, t :: ts =>
    if simKeep rand prob i t then t :: simDrawFilter rand prob (i + 1) ts
    else simDrawFilter rand prob (i + 1) ts

/-- `_simulate_siem_query`.  Note that the `end_time` parameter exists in the
source but is never consulted by the body, which is why it is unnamed here. -/
def simulateSiemQuery (prng : PRNG) (techniques : List String)
    (siemName : String) (startTs : ℚ) (_endTs : ℚ) : BackendResult :=
  let prob := ((detectionProbabilities.lookup siemName.toLower).getD (1/2) : ℚ)
  let seed := simulateSeed siemName startTs
  let detected := simDrawFilter (prng.rand seed) prob 0 techniques
  let n := techniques.length
  let events := detected.length * prng.randInt seed n 1 5
  let firstEv := startTs + 60 * (prng.randInt seed (n + 1) 1 30 : ℚ)
  let lastEv := startTs + 60 * (prng.randInt seed (n + 2) 31 120 : ℚ)
  { detected_techniques := detected, events_found := events,
    first_event_time := some firstEv, last_event_time := some lastEv,
    details := [("simulation", "True"),
                ("detection_probability", toString prob),
                ("siem_name", siemName)] }

/-- The backend dispatch inside `_query_siem_techniques`: select the
type-specific query method, falling back to the simulation variant for
unknown types.  Only the Splunk variant can raise. -/
def dispatchQuery (prng : PRNG) (siemName : String) (cfg : SiemConfig)
    (ids : List String) (st et : ℚ) : Except String BackendResult :=
  if cfg.type = "splunk" then querySplunk prng cfg ids st et
  else if cfg.type = "arcsight" then .ok (queryArcsight prng cfg ids st et)
  else if cfg.type = "elastic" then .ok (queryElastic prng cfg ids st et)
  else if cfg.type = "qradar" then .ok (queryQradar prng cfg ids st et)
  else .ok (simulateSiemQuery prng ids siemName st et)

/-! ## Query cache and `_query_siem_techniques` -/

/-- What `_query_siem_techniques` returns: a successful (possibly cached)
backend result, or — in the exception branch — an error dict with empty
detections and zero events.  Absent dict keys are `none`/`[]`. -/
structure SiemQueryResult where
  detected_techniques : List String
  events_found : Nat
  query_time : ℚ
  error : Option String := none
  first_event_time : Option ℚ := none
  last_event_time : Option ℚ := none
  details : List (String × String) := []
deriving DecidableEq

/-- The cache key.  The source builds the string
`f"{siem_name}_{hash(tuple(technique_ids))}_{start.timestamp()}_{end.timestamp()}"`;
the tuple hash is modelled as an injective fingerprint of the technique-id
list *in its given order* (no sorting happens in the source). -/
structure CacheKey where
  siem : String
  ids : List String
  startTs : ℚ
  endTs : ℚ
deriving DecidableEq

/-- A cache slot: `{'timestamp': datetime.now(), 'result': result}`. -/
structure CacheEntry where
  timestamp : ℚ
  result : SiemQueryResult
deriving DecidableEq

/-- The process-wide query cache `self._query_cache`, as an association list
with Python-dict lookup/overwrite semantics. -/
abbrev Cache := List (CacheKey × CacheEntry)

/-- The cache key built by `_query_siem_techniques`. -/
def mkCacheKey (siemName : String) (ids : List String) (st et : ℚ) : CacheKey :=
  { siem := siemName, ids := ids, startTs := st, endTs := et }

/-- Dict lookup. -/
def cacheLookup (c : Cache) (k : CacheKey) : Option CacheEntry :=
  match c with
  | [] => none
  | (k', e) :: rest => if k' = k then some e else cacheLookup rest k

/-- Dict assignment: overwrite an existing slot in place, else append. -/
def cacheStore (c : Cache) (k : CacheKey) (e : CacheEntry) : Cache :=
  match c with
  | [] => [(k, e)]
  | (k', e') :: rest =>
    if k' = k then (k, e) :: rest else (k', e') :: cacheStore rest k e

/-- The cache-check at the top of `_query_siem_techniques`: with caching
enabled and a stored entry strictly younger than the TTL, return its result. -/
def cacheFresh (cacheEnabled : Bool) (ttl : ℚ) (c : Cache) (k : CacheKey)
    (tNow : ℚ) : Option SiemQueryResult :=
  if cacheEnabled then
    match cacheLookup c k with
    | some e => if tNow - e.timestamp < ttl then some e.result else none
    | none => none
  else none

/-- Lift a backend result into the dict `_query_siem_techniques` returns,
with `query_time` filled in. -/
def resultOfBackend (br : BackendResult) (qt : ℚ) : SiemQueryResult :=
  { detected_techniques := br.detected_techniques
    events_found := br.events_found
    query_time := qt
    error := none
    first_event_time := br.first_event_time
    last_event_time := br.last_event_time
    details := br.details }

/-- The dict returned by the `except` branch of `_query_siem_techniques`. -/
def errorResult (msg : String) (qt : ℚ) : SiemQueryResult :=
  { detected_techniques := [], events_found := 0, query_time := qt,
    error := some msg }

/-- `_query_siem_techniques`: cache check, backend dispatch, store on
success, swallow exceptions into an error dict (which is *not* stored).
`tCheck`/`tStore` are the two `datetime.now()` readings (query start /
completion); the service TTL `self._cache_ttl` is 600 seconds.  The final
`Bool` is instrumentation flagging whether the backend compute ran (the
spec's call-counting stub); it is `false` exactly on a fresh cache hit. -/
def querySiemTechniques (prng : PRNG) (cacheEnabled : Bool) (ttl : ℚ)
    (cache : Cache) (siemName : String) (cfg : SiemConfig) (ids : List String)
    (st et tCheck tStore : ℚ) : SiemQueryResult × Cache × Bool :=
  match cacheFresh cacheEnabled ttl cache (mkCacheKey siemName ids st et) tCheck with
  | some r => (r, cache, false)
  | none =>
    match dispatchQuery prng siemName cfg ids st et with
    | .ok br =>
      (resultOfBackend br (tStore - tCheck),
       (if cacheEnabled then
          cacheStore cache (mkCacheKey siemName ids st et)
            { timestamp := tStore, result := resultOfBackend br (tStore - tCheck) }
        else cache),
       true)
    | .error msg => (errorResult msg (tStore - tCheck), cache, true)

/-! ## Rounding and the detection rate -/

/-- `round` to an integer with round-half-to-even (Python's `round`). -/
def roundHalfEven (q : ℚ) : ℤ :=
  if q - ⌊q⌋ < 1/2 then ⌊q⌋
  else if 1/2 < q - ⌊q⌋ then ⌊q⌋ + 1
  else if ⌊q⌋ % 2 = 0 then ⌊q⌋ else ⌊q⌋ + 1

/-- `round(x, 2)` on the modelled floats. -/
def round2 (q : ℚ) : ℚ :=
  (roundHalfEven (q * 100) : ℚ) / 100

/-- The per-source detection rate computed in `analyze_operation`:
`(len(detected_techs) / len(technique_ids)) * 100 if technique_ids else 0`. -/
def detectionRate (detected ids : List String) : ℚ :=
  if ids = [] then 0 else (detected.length : ℚ) / (ids.length : ℚ) * 100

/-! ## Report shapes -/

/-- One per-source entry of `siem_results` in the final report.  The `error`
field models the key of the `isinstance(result, Exception)` conversion
branch; defaults model keys absent from the success entry. -/
structure SiemEntry where
  success : Bool
  error : Option String := none
  techniques_detected : List String
  detection_rate : ℚ
  events_found : Nat
  query_time : ℚ := 0
  first_event_time : Option ℚ := none
  last_event_time : Option ℚ := none
  details : List (String × String) := []
deriving DecidableEq

/-- The `techniques_used` section of the report. -/
structure TechniquesUsed where
  total : Nat
  list : List String
  details : List (String × TechDetail)
deriving DecidableEq

/-- The `overall_metrics` dict (`_calculate_overall_metrics`).  The two
early-return branches omit `coverage_percentage` and `siems_tested`, hence
the `Option` fields. -/
structure OverallMetrics where
  average_detection_rate : ℚ
  best_siem : Option (String × ℚ) := none
  worst_siem : Option (String × ℚ) := none
  unique_detections : Nat
  coverage_percentage : Option ℚ := none
  siems_tested : Option Nat := none
deriving DecidableEq

/-- The metrics dict returned when there are no (successful) source results. -/
def emptyOverallMetrics : OverallMetrics :=
  { average_detection_rate := 0, best_siem := none, worst_siem := none,
    unique_detections := 0 }

/-- The dict `analyze_operation` returns.  The three return shapes (not-found
error, no-techniques warning, full report) share this structure, with `none`
marking keys the respective shape omits.  The wall-clock `analysis_time` and
the constant `analysis_version` keys are not modelled. -/
structure Report where
  success : Bool
  error : Option String := none
  warning : Option String := none
  operation_id : Option String := none
  operation_name : Option String := none
  operation_start : Option ℚ := none
  operation_end : Option ℚ := none
  timeframe_hours : Option Nat := none
  techniques_used : Option TechniquesUsed := none
  siem_results : Option (List (String × SiemEntry)) := none
  overall_metrics : Option OverallMetrics := none
  recommendations : Option (List String) := none
deriving DecidableEq

/-! ## Overall metrics (`_calculate_overall_metrics`) -/

/-- Python `max(items, key=rate)`: the first item attaining the maximal rate. -/
def maxByRate (x : String × SiemEntry) (xs : List (String × SiemEntry)) :
    String × SiemEntry :=
  xs.foldl (fun b y => if b.2.detection_rate < y.2.detection_rate then y else b) x

/-- Python `min(items, key=rate)`: the first item attaining the minimal rate. -/
def minByRate (x : String × SiemEntry) (xs : List (String × SiemEntry)) :
    String × SiemEntry :=
  xs.foldl (fun b y => if y.2.detection_rate < b.2.detection_rate then y else b) x

/-- `_calculate_overall_metrics`. -/
def calcOverallMetrics (siemResults : List (String × SiemEntry))
    (ids : List String) : OverallMetrics :=
  match siemResults with
  | [] => emptyOverallMetrics
  | _ :: _ =>
    match siemResults.filter (fun p => p.2.success) with
    | [] => emptyOverallMetrics
    | s :: ss =>
      let succ := s :: ss
      let rates := succ.map (fun p => p.2.detection_rate)
      let avg := rates.sum / (rates.length : ℚ)
      let best := maxByRate s ss
      let worst := minByRate s ss
      let allDetected :=
        (succ.foldl (fun acc p => acc ++ p.2.techniques_detected) []).dedup
      let unique := allDetected.length
      { average_detection_rate := round2 avg
        best_siem := some (best.1, best.2.detection_rate)
        worst_siem := some (worst.1, worst.2.detection_rate)
        unique_detections := unique
        coverage_percentage :=
          some (if ids = [] then 0 else round2 ((unique : ℚ) / (ids.length : ℚ) * 100))
        siems_tested := some succ.length }

/-! ## Recommendations (`_generate_recommendations`)

Numeric interpolation into the message strings uses `toString` of the exact
rational where Python formats the float (`str(rate)`, `f"{t:.1f}"`). -/

/-- Python `str.upper()` on the (ASCII) source names, as a character map. -/
def pyUpper (s : String) : String :=
  String.mk (s.toList.map Char.toUpper)

def noSiemMsg : String :=
  "No SIEM systems configured or enabled. Configure at least one SIEM in the configuration file."

def allFailedMsg : String :=
  "All SIEM queries failed. Check SIEM connectivity and configuration."

def lowRateMsg (name : String) (rate : ℚ) : String :=
  pyUpper name ++ " has low detection rate (" ++ toString rate ++
    "%). Consider tuning detection rules or adding custom correlations."

def modRateMsg (name : String) (rate : ℚ) : String :=
  pyUpper name ++ " has moderate detection rate (" ++ toString rate ++
    "%). Review undetected techniques for rule improvements."

def gapMsg (bn : String) (br : ℚ) (wn : String) (wr : ℚ) : String :=
  "Significant performance gap detected: " ++ pyUpper bn ++ " (" ++ toString br ++
    "%) vs " ++ pyUpper wn ++ " (" ++ toString wr ++
    "%). Consider sharing detection rules between systems."

def criticalMsg (ts : List String) : String :=
  "Critical techniques undetected by all SIEMs: " ++ joinSep ", " ts ++
    ". Prioritize implementing detection rules for these techniques."

def totalUndetectedMsg (n : Nat) : String :=
  "Total undetected techniques across all SIEMs: " ++ toString n ++
    ". Review detection coverage for these techniques."

/-- `f"{query_time:.1f}"` modelled as rounding to one decimal place. -/
def slowQueryMsg (name : String) (qt : ℚ) : String :=
  pyUpper name ++ " query took " ++ toString ((roundHalfEven (qt * 10) : ℚ) / 10) ++
    " seconds. Consider optimizing search queries or increasing SIEM resources."

def goodCoverageMsg : String :=
  "Good overall detection coverage. Consider expanding testing to more techniques."

def criticalTechs : List String := ["T1003", "T1110", "T1059"]

/-- Stable insertion for a descending sort by rate (`list.sort(key=rate,
reverse=True)`): an element is placed after every earlier element whose rate
is at least its own. -/
def insertRateDesc (x : String × ℚ) : List (String × ℚ) → List (String × ℚ)
  | [] => [x]
  | y :: ys => if x.2 ≤ y.2 then y :: insertRateDesc x ys else x :: y :: ys

/-- Stable descending sort by rate. -/
def sortRatesDesc (l : List (String × ℚ)) : List (String × ℚ) :=
  l.foldl (fun acc x => insertRateDesc x acc) []

/-- The per-source detection-rate rules: `<30` appends the low message,
`30–<60` the moderate message, anything else nothing (there is no `≥70`
rule in the source). -/
def rateStep (acc : List String) (p : String × SiemEntry) : List String :=
  if p.2.detection_rate < 30 then acc ++ [lowRateMsg p.1 p.2.detection_rate]
  else if p.2.detection_rate < 60 then acc ++ [modRateMsg p.1 p.2.detection_rate]
  else acc

def rateRecs (succ : List (String × SiemEntry)) : List String :=
  succ.foldl rateStep []

/-- The best/worst performance-gap rule: with more than one successful
source, sort by rate descending (stable) and compare first against last. -/
def gapRecs (succ : List (String × SiemEntry)) : List String :=
  if 1 < succ.length then
    match (sortRatesDesc (succ.map fun p => (p.1, p.2.detection_rate))).head?,
          (sortRatesDesc (succ.map fun p => (p.1, p.2.detection_rate))).getLast? with
    | some b, some w => if 30 < b.2 - w.2 then [gapMsg b.1 b.2 w.1 w.2] else []
    | _, _ => []
  else []

/-- Union of the successful sources' detected-technique lists (the set
`all_detected`, as a list with membership semantics). -/
def allDetectedOf (succ : List (String × SiemEntry)) : List String :=
  succ.foldl (fun acc p => acc ++ p.2.techniques_detected) []

/-- The undetected technique keys (`set(techniques_data.keys()) -
all_detected`), modelled in key-insertion order — no analysed property
depends on the Python set's iteration order. -/
def undetectedOf (succ : List (String × SiemEntry))
    (techniquesData : List (String × TechDetail)) : List String :=
  (techniquesData.map Prod.fst).filter (fun k => ! (allDetectedOf succ).contains k)

/-- The undetected-techniques rules: a critical-techniques message when any
of `criticalTechs` is undetected, then the total-undetected-count message. -/
def undetRecs (succ : List (String × SiemEntry))
    (techniquesData : List (String × TechDetail)) : List String :=
  if undetectedOf succ techniquesData = [] then []
  else
    (if (undetectedOf succ techniquesData).filter
          (fun t => criticalTechs.contains t) = [] then []
     else [criticalMsg ((undetectedOf succ techniquesData).filter
            (fun t => criticalTechs.contains t))]) ++
      [totalUndetectedMsg (undetectedOf succ techniquesData).length]

/-- The slow-query rule: per-source query time above 10 seconds. -/
def slowStep (acc : List String) (p : String × SiemEntry) : List String :=
  if 10 < p.2.query_time then acc ++ [slowQueryMsg p.1 p.2.query_time] else acc

def slowRecs (succ : List (String × SiemEntry)) : List String :=
  succ.foldl slowStep []

/-- `_generate_recommendations`: the rule blocks above in the source's fixed
order, with the good-coverage message as a fallback when no rule fired. -/
def genRecommendations (siemResults : List (String × SiemEntry))
    (techniquesData : List (String × TechDetail)) : List String :=
  match siemResults with
  | [] => [noSiemMsg]
  | _ :: _ =>
    if siemResults.filter (fun p => p.2.success) = [] then [allFailedMsg]
    else
      if rateRecs (siemResults.filter (fun p => p.2.success)) ++
         gapRecs (siemResults.filter (fun p => p.2.success)) ++
         undetRecs (siemResults.filter (fun p => p.2.success)) techniquesData ++
         slowRecs (siemResults.filter (fun p => p.2.success)) = [] then
        [goodCoverageMsg]
      else
        rateRecs (siemResults.filter (fun p => p.2.success)) ++
        gapRecs (siemResults.filter (fun p => p.2.success)) ++
        undetRecs (siemResults.filter (fun p => p.2.success)) techniquesData ++
        slowRecs (siemResults.filter (fun p => p.2.success))

/-! ## Orchestration (`analyze_operation`) -/

/-- Global configuration consumed by `analyze_operation`. -/
structure DmConfig where
  siem_connections : List (String × SiemConfig)
  default_timeframe_hours : Nat := 24
  cache_enabled : Bool := true
deriving DecidableEq

def notFoundError (operationId : String) : String :=
  "Operation " ++ operationId ++ " not found."

def noTechniquesWarning : String :=
  "No MITRE ATT&CK techniques found in operation"

/-- The per-source entry built by the result-processing loop of
`analyze_operation`.  Since `_query_siem_techniques` catches every exception
internally and returns a dict, `asyncio.gather` never yields an `Exception`
object, the `isinstance(result, Exception)` conversion branch is unreachable,
and the loop always takes its `else` branch — even for a result that carries
an `error` key, whose error message is dropped here. -/
def mkSiemEntry (res : SiemQueryResult) (ids : List String) : SiemEntry :=
  { success := true
    techniques_detected := res.detected_techniques
    detection_rate := round2 (detectionRate res.detected_techniques ids)
    events_found := res.events_found
    query_time := res.query_time
    first_event_time := res.first_event_time
    last_event_time := res.last_event_time
    details := res.details }

/-- The fan-out over the enabled sources followed by the result-processing
loop, modelled sequentially: returns the `siem_results` entries in configured
order, the final cache, and the names of the sources whose backend compute
actually ran (call-count instrumentation).  `qTimes name` gives the two
`datetime.now()` readings around that source's query. -/
def querySiems (prng : PRNG) (cacheEnabled : Bool) (ttl : ℚ)
    (ids : List String) (st et : ℚ) (qTimes : String → ℚ × ℚ) :
    List (String × SiemConfig) → Cache →
    List (String × SiemEntry) × Cache × List String
  | [], c => ([], c, [])
  | (name, scfg) :: rest, c =>
    let ts := qTimes name
    let q := querySiemTechniques prng cacheEnabled ttl c name scfg ids st et ts.1 ts.2
    let tail := querySiems prng cacheEnabled ttl ids st et qTimes rest q.2.1
    ((name, mkSiemEntry q.1 ids) :: tail.1, tail.2.1,
     (if q.2.2 then [name] else []) ++ tail.2.2)

/-- `analyze_operation`.  `located` is what the external operation store
returned for the id; `now` models `datetime.now()` for the timeframe
fallbacks; `ttl` is the service's `_cache_ttl` (600 seconds in `__init__`).
Returns the report, the final query-cache state, and the names of sources
whose backend compute ran. -/
def analyzeOperation (prng : PRNG) (config : DmConfig) (ttl : ℚ) (cache₀ : Cache)
    (located : List Operation) (operationId : String)
    (timeframeHours : Option Nat) (now : ℚ) (qTimes : String → ℚ × ℚ) :
    Report × Cache × List String :=
  match located with
  | [] =>
    ({ success := false, error := some (notFoundError operationId) }, cache₀, [])
  | op :: _ =>
    let techsData := extractTechniques op
    if techsData = [] then
      ({ success := true, warning := some noTechniquesWarning,
         operation_id := some operationId, operation_name := some op.name },
       cache₀, [])
    else
      let tf := timeframeHours.getD config.default_timeframe_hours
      let startTs := op.start.getD (now - (tf : ℚ) * 3600)
      let endTs := op.finish.getD now
      let enabled := config.siem_connections.filter (fun p => p.2.enabled)
      let ids := techsData.map Prod.fst
      let q := querySiems prng config.cache_enabled ttl ids startTs endTs qTimes
                 enabled cache₀
      let overall := calcOverallMetrics q.1 ids
      let recs := genRecommendations q.1 techsData
      ({ success := true
         operation_id := some op.id
         operation_name := some op.name
         operation_start := some startTs
         operation_end := some endTs
         timeframe_hours := some tf
         techniques_used := some { total := ids.length, list := ids, details := techsData }
         siem_results := some q.1
         overall_metrics := some overall
         recommendations := some recs }, q.2.1, q.2.2)

/-! ## Cache well-formedness

Every result ever stored by `_query_siem_techniques` was produced by a
backend query over the key's technique-id list, whose detected list is a
sublist of that list.  `CacheWF` is the corresponding invariant on cache
states; it holds of the empty initial cache and is preserved by every query
(proved below). -/
def CacheWF (c : Cache) : Prop :=
  ∀ kv ∈ c, List.Sublist kv.2.result.detected_techniques kv.1.ids

/-! ## Concrete fixtures used to instantiate the theorems -/

/-- A pseudo-random stream all of whose draws are `1` (above every detection
threshold) and whose `randint` draws return the lower bound. -/
def prngOne : PRNG :=
  { rand := fun _ _ => 1, randInt := fun _ _ lo _ => lo }

/-- An ability carrying a given technique id. -/
def abilityOf (tid : String) : Ability :=
  { technique_id := some tid, name := "ab", description := "", tactic := "execution" }

/-- A link executing a given technique id. -/
def linkOf (tid : String) : Link :=
  { ability := some (abilityOf tid), decide_ts := some 10, status := 0 }

/-- An operation executing `T1059.001` and `T1059.002` and nothing else. -/
def opSubTech : Operation :=
  { id := "op-sub", name := "SubTech", start := some 0, finish := some 3600,
    chain := [linkOf "T1059.001", linkOf "T1059.002"] }

/-- An operation with one link carrying no ability (zero qualifying links). -/
def opNoTech : Operation :=
  { id := "op-empty", name := "Empty", start := some 0, finish := some 3600,
    chain := [{ ability := none, decide_ts := none, status := 0 }] }

/-- An operation executing a single `T1059` technique. -/
def opOne : Operation :=
  { id := "op-one", name := "One", start := some 0, finish := some 3600,
    chain := [linkOf "T1059"] }

/-- The fallback configuration built by `_load_config` when no configuration
file is found: four known backends, all disabled, 24h default timeframe,
caching enabled (`max_events_per_siem` is not consumed by the analysed
code paths and is not modelled). -/
def defaultConfig : DmConfig :=
  { siem_connections :=
      [ ("arcsight",
         { type := "arcsight", enabled := false,
           api_endpoint := "https://arcsight.example.com:8443", token := "" }),
        ("splunk",
         { type := "splunk", enabled := false,
           api_endpoint := "https://splunk.example.com:8089", token := "" }),
        ("elastic",
         { type := "elastic", enabled := false,
           api_endpoint := "https://elastic.example.com:9200", token := "" }),
        ("qradar",
         { type := "qradar", enabled := false,
           api_endpoint := "https://qradar.example.com/api", token := "" }) ]
    default_timeframe_hours := 24
    cache_enabled := true }

/-- Three enabled sources of which exactly one (Splunk, with an empty token)
raises during querying. -/
def cfgOneFailing : DmConfig :=
  { siem_connections :=
      [ ("splunk",
         { type := "splunk", enabled := true,
           api_endpoint := "https://s.example.com", token := "" }),
        ("elastic",
         { type := "elastic", enabled := true,
           api_endpoint := "https://e.example.com", token := "t" }),
        ("qradar",
         { type := "qradar", enabled := true,
           api_endpoint := "https://q.example.com", token := "t" }) ] }

/-- A source of unknown type, dispatched to the simulation variant (which
never raises). -/
def scfgSim : SiemConfig :=
  { type := "simulated", enabled := true, api_endpoint := "", token := "" }

/-- A Splunk source with an empty token: its query method raises. -/
def scfgBadSplunk : SiemConfig :=
  { type := "splunk", enabled := true, api_endpoint := "https://s.example.com",
    token := "" }

/-- A successful entry with a 10% rate, no detections and a 20-second query
(fires the low-rate and slow-query rules). -/
def entryLowSlow : SiemEntry :=
  { success := true, techniques_detected := [], detection_rate := 10,
    events_found := 0, query_time := 20 }

/-- A successful entry with a 40% rate (fires the moderate-rate rule). -/
def entryMid40 : SiemEntry :=
  { success := true, techniques_detected := [], detection_rate := 40,
    events_found := 0, query_time := 1 }

/-- A successful entry with an 80% rate detecting `T1059`. -/
def entryHigh : SiemEntry :=
  { success := true, techniques_detected := ["T1059"], detection_rate := 80,
    events_found := 3, query_time := 1 }

/-- A successful entry with a 65% rate detecting both fixture techniques. -/
def entryMid65 : SiemEntry :=
  { success := true, techniques_detected := ["T1059", "T1003"],
    detection_rate := 65, events_found := 1, query_time := 1 }

/-- A failed source entry. -/
def entryFailed : SiemEntry :=
  { success := false, techniques_detected := [], detection_rate := 0,
    events_found := 0, query_time := 1 }

/-- Three successful sources exercising the low-rate, moderate-rate, gap,
undetected-technique and slow-query rules at once. -/
def siemResultsMixed : List (String × SiemEntry) :=
  [("a", entryLowSlow), ("m", entryMid40), ("b", entryHigh)]

/-- Technique data with one detected technique (`T1059`) and one undetected
critical technique (`T1003`). -/
def techsMixed : List (String × TechDetail) :=
  [("T1059",
    { technique_id := "T1059", full_id := "T1059", name := "n", tactics := [],
      count := 1, ability_used := "", ability_description := "", tactic := "",
      executions := [] }),
   ("T1003",
    { technique_id := "T1003", full_id := "T1003", name := "n", tactics := [],
      count := 1, ability_used := "", ability_description := "", tactic := "",
      executions := [] })]

/-- Technique data with the single technique `T1059`. -/
def techsT1059 : List (String × TechDetail) :=
  [("T1059",
    { technique_id := "T1059", full_id := "T1059", name := "n", tactics := [],
      count := 1, ability_used := "", ability_description := "", tactic := "",
      executions := [] })]

/-! ## Lemmas: technique-id normalization -/

theorem takeWhile_digits_append (d s : List Char) (hd : ∀ c ∈ d, c.isDigit) :
    (d ++ '.' :: s).takeWhile (fun c => c.isDigit) = d := by
  induction d with
  | nil => simp [List.takeWhile_cons]
  | cons a t ih =>
    have ha : a.isDigit := hd a (by simp)
    simp only [List.cons_append, List.takeWhile_cons, ha, if_true]
    rw [ih (fun c hc => hd c (by simp [hc]))]

theorem dropWhile_digits_append (d s : List Char) (hd : ∀ c ∈ d, c.isDigit) :
    (d ++ '.' :: s).dropWhile (fun c => c.isDigit) = '.' :: s := by
  induction d with
  | nil => simp [List.dropWhile_cons]
  | cons a t ih =>
    have ha : a.isDigit := hd a (by simp)
    simp only [List.cons_append, List.dropWhile_cons, ha, if_true]
    exact ih (fun c hc => hd c (by simp [hc]))

theorem stripSubTechnique_append (s d : List Char) (hne : d ≠ [])
    (hd : ∀ c ∈ d, c.isDigit) :
    stripSubTechnique (String.mk (s ++ '.' :: d)) = String.mk s := by
  have hrev : (String.mk (s ++ '.' :: d)).toList.reverse =
      d.reverse ++ '.' :: s.reverse := by
    show (s ++ '.' :: d).reverse = d.reverse ++ '.' :: s.reverse
    rw [List.reverse_append, List.reverse_cons, List.append_assoc,
        List.singleton_append]
  unfold stripSubTechnique
  rw [hrev,
      takeWhile_digits_append d.reverse s.reverse
        (fun c hc => hd c (List.mem_reverse.mp hc)),
      dropWhile_digits_append d.reverse s.reverse
        (fun c hc => hd c (List.mem_reverse.mp hc))]
  cases hcons : d.reverse with
  | nil => exact absurd (by simpa using congrArg List.reverse hcons) hne
  | cons x xs => simp

/-! ## Lemmas: extraction counting -/

theorem lookupTech_bumpTech_self (m : List (String × TechDetail)) (base : String)
    (fresh : TechDetail) (e : Execution) :
    lookupTech (bumpTech m base fresh e) base =
      match lookupTech m base with
      | some r => some { r with count := r.count + 1, executions := r.executions ++ [e] }
      | none => some fresh := by
  induction m with
  | nil => simp [bumpTech, lookupTech]
  | cons hd tl ih =>
    obtain ⟨k, r⟩ := hd
    by_cases h : k = base
    · subst h; simp [bumpTech, lookupTech]
    · simp [bumpTech, lookupTech, h, ih]

theorem lookupTech_bumpTech_other (m : List (String × TechDetail))
    (base key : String) (hk : key ≠ base) (fresh : TechDetail) (e : Execution) :
    lookupTech (bumpTech m base fresh e) key = lookupTech m key := by
  induction m with
  | nil => simp [bumpTech, lookupTech, Ne.symm hk]
  | cons hd tl ih =>
    obtain ⟨k, r⟩ := hd
    by_cases h : k = base
    · subst h; simp [bumpTech, lookupTech, Ne.symm hk]
    · by_cases h2 : k = key
      · subst h2; simp [bumpTech, lookupTech, h]
      · simp [bumpTech, lookupTech, h, h2, ih]

theorem countOf_bumpTech_self (m : List (String × TechDetail)) (base : String)
    (fresh : TechDetail) (e : Execution) (hf : fresh.count = 1) :
    countOf (bumpTech m base fresh e) base = countOf m base + 1 := by
  unfold countOf
  rw [lookupTech_bumpTech_self]
  cases lookupTech m base <;> simp [hf]

theorem countOf_extractStep (m : List (String × TechDetail)) (link : Link)
    (key : String) :
    countOf (extractStep m link) key =
      countOf m key + (if linkBase link = some key then 1 else 0) := by
  cases hab : link.ability with
  | none => simp [extractStep, linkBase, hab]
  | some ab =>
    cases htid : ab.technique_id with
    | none => simp [extractStep, linkBase, hab, htid]
    | some tid =>
      by_cases ht : tid = ""
      · simp [extractStep, linkBase, hab, htid, ht]
      · have hstep : extractStep m link =
            bumpTech m (stripSubTechnique tid)
              (newDetail (stripSubTechnique tid) tid ab link) (execOf ab link) := by
          simp [extractStep, hab, htid, ht]
        have hbase : linkBase link = some (stripSubTechnique tid) := by
          simp [linkBase, hab, htid, ht]
        rw [hstep, hbase]
        by_cases hk : stripSubTechnique tid = key
        · subst hk
          rw [countOf_bumpTech_self m (stripSubTechnique tid)
                (newDetail (stripSubTechnique tid) tid ab link) (execOf ab link) rfl]
          simp
        · have hne : key ≠ stripSubTechnique tid := fun h => hk h.symm
          unfold countOf
          rw [lookupTech_bumpTech_other m _ _ hne]
          simp [hk]

theorem countOf_foldl_extractStep (links : List Link)
    (m : List (String × TechDetail)) (key : String) :
    countOf (links.foldl extractStep m) key = countOf m key + baseCount links key := by
  induction links generalizing m with
  | nil => simp [baseCount]
  | cons l t ih =>
    rw [List.foldl_cons, ih, countOf_extractStep]
    unfold baseCount
    rw [List.countP_cons]
    simp only [decide_eq_true_eq]
    by_cases h : linkBase l = some key
    · rw [if_pos h]
      omega
    · rw [if_neg h]
      omega

theorem countOf_extractTechniques (op : Operation) (key : String) :
    countOf (extractTechniques op) key = baseCount op.chain key := by
  unfold extractTechniques
  rw [countOf_foldl_extractStep]
  simp [countOf, lookupTech]

/-! ## Lemmas: extraction keys -/

theorem lookupTech_eq_none_iff (m : List (String × TechDetail)) (key : String) :
    lookupTech m key = none ↔ key ∉ m.map Prod.fst := by
  induction m with
  | nil => simp [lookupTech]
  | cons hd tl ih =>
    obtain ⟨k, r⟩ := hd
    by_cases h : k = key
    · subst h; simp [lookupTech]
    · simp [lookupTech, h, ih, Ne.symm h]

theorem keys_bumpTech (m : List (String × TechDetail)) (base : String)
    (fresh : TechDetail) (e : Execution) :
    (bumpTech m base fresh e).map Prod.fst =
      if lookupTech m base = none then m.map Prod.fst ++ [base]
      else m.map Prod.fst := by
  induction m with
  | nil => simp [bumpTech, lookupTech]
  | cons hd tl ih =>
    obtain ⟨k, r⟩ := hd
    by_cases h : k = base
    · subst h; simp [bumpTech, lookupTech]
    · simp only [bumpTech, lookupTech, h, if_false, List.map_cons, ih]
      by_cases h2 : lookupTech tl base = none <;> simp [h2]

theorem keys_extractStep_nodup (m : List (String × TechDetail)) (link : Link)
    (h : (m.map Prod.fst).Nodup) : ((extractStep m link).map Prod.fst).Nodup := by
  cases hab : link.ability with
  | none => simpa [extractStep, hab] using h
  | some ab =>
    cases htid : ab.technique_id with
    | none => simpa [extractStep, hab, htid] using h
    | some tid =>
      by_cases ht : tid = ""
      · simpa [extractStep, hab, htid, ht] using h
      · have hstep : extractStep m link =
            bumpTech m (stripSubTechnique tid)
              (newDetail (stripSubTechnique tid) tid ab link) (execOf ab link) := by
          simp [extractStep, hab, htid, ht]
        rw [hstep, keys_bumpTech]
        by_cases h2 : lookupTech m (stripSubTechnique tid) = none
        · simp only [h2, if_true]
          rw [List.nodup_append]
          exact ⟨h, List.nodup_singleton _,
            by simpa using (lookupTech_eq_none_iff _ _).mp h2⟩
        · simp [h2, h]

theorem keys_foldl_extractStep_nodup (links : List Link)
    (m : List (String × TechDetail)) (h : (m.map Prod.fst).Nodup) :
    ((links.foldl extractStep m).map Prod.fst).Nodup := by
  induction links generalizing m with
  | nil => exact h
  | cons l t ih => exact ih _ (keys_extractStep_nodup m l h)

theorem extractTechniques_keys_nodup (op : Operation) :
    ((extractTechniques op).map Prod.fst).Nodup :=
  keys_foldl_extractStep_nodup op.chain [] (by simp)

/-! ## Claim C2 -/

/-- C2: in every operation whose chain contains exactly two qualifying links
whose technique ids normalize to the base `T1059` (such as one link carrying
`T1059.001` and one carrying `T1059.002`, and no other link sharing that
base), the Technique Extractor produces exactly one technique record keyed
by the normalized id `T1059`, and its count equals 2; and in general every
trailing dot-digits sub-technique suffix is stripped before a technique id
is used as a coverage unit. -/
theorem extract_collapses_sub_techniques (op : Operation)
    (h : baseCount op.chain "T1059" = 2) :
    ((extractTechniques op).map Prod.fst).count "T1059" = 1 ∧
    (∃ r, lookupTech (extractTechniques op) "T1059" = some r ∧ r.count = 2) ∧
    (∀ s d : List Char, d ≠ [] → (∀ c ∈ d, c.isDigit) →
      stripSubTechnique (String.mk (s ++ '.' :: d)) = String.mk s) := by
  have hc : countOf (extractTechniques op) "T1059" = 2 := by
    rw [countOf_extractTechniques, h]
  refine ⟨?_, ?_, fun s d hne hd => stripSubTechnique_append s d hne hd⟩
  · have hmem : "T1059" ∈ (extractTechniques op).map Prod.fst := by
      by_contra hnm
      have h0 := (lookupTech_eq_none_iff (extractTechniques op) "T1059").mpr hnm
      unfold countOf at hc
      rw [h0] at hc
      simp at hc
    exact List.count_eq_one_of_mem (extractTechniques_keys_nodup op) hmem
  · unfold countOf at hc
    cases hl : lookupTech (extractTechniques op) "T1059" with
    | none => rw [hl] at hc; simp at hc
    | some r =>
      rw [hl] at hc
      exact ⟨r, rfl, hc⟩

/-- Witness for C2 at the concrete operation executing `T1059.001` and
`T1059.002`. -/
theorem extract_collapses_sub_techniques_witness :
    baseCount opSubTech.chain "T1059" = 2 ∧
    (((extractTechniques opSubTech).map Prod.fst).count "T1059" = 1 ∧
     (∃ r, lookupTech (extractTechniques opSubTech) "T1059" = some r ∧ r.count = 2) ∧
     (∀ s d : List Char, d ≠ [] → (∀ c ∈ d, c.isDigit) →
       stripSubTechnique (String.mk (s ++ '.' :: d)) = String.mk s)) :=
  ⟨by decide, extract_collapses_sub_techniques opSubTech (by decide)⟩

/-! ## Claim C3 -/

/-- C3 counterexample: for a concrete operation whose chain has zero
qualifying links, the warning report returned by `analyze_operation` carries
no `techniques_used` section at all — so the claimed `techniques_used.total
== 0` fails: the field is absent, not zero. -/
theorem no_techniques_report_lacks_total :
    (((analyzeOperation prngOne defaultConfig 600 [] [opNoTech] "op-empty"
        none 7200 (fun _ => (0, 1))).1.techniques_used).map TechniquesUsed.total
      ≠ some 0) ∧
    (analyzeOperation prngOne defaultConfig 600 [] [opNoTech] "op-empty"
        none 7200 (fun _ => (0, 1))).1.techniques_used = none := by
  decide

/-- C3 (amended): for every located operation with zero qualifying links,
`analyze_operation` returns the warning-flagged success report — the warning
message, the operation id and name, and no `techniques_used`, `siem_results`,
`overall_metrics` or `recommendations` sections — with the query cache
unchanged and no detection-source query issued (no backend compute runs). -/
theorem no_techniques_short_circuit (prng : PRNG) (config : DmConfig) (ttl : ℚ)
    (cache₀ : Cache) (op : Operation) (rest : List Operation)
    (operationId : String) (tf : Option Nat) (now : ℚ) (qTimes : String → ℚ × ℚ)
    (h : extractTechniques op = []) :
    analyzeOperation prng config ttl cache₀ (op :: rest) operationId tf now qTimes =
      ({ success := true, warning := some noTechniquesWarning,
         operation_id := some operationId, operation_name := some op.name },
       cache₀, []) := by
  simp [analyzeOperation, h]

/-- Witness for the amended C3 at a concrete operation with one
ability-less link. -/
theorem no_techniques_short_circuit_witness :
    extractTechniques opNoTech = [] ∧
    analyzeOperation prngOne defaultConfig 600 [] [opNoTech] "op-empty" none 7200
        (fun _ => (0, 1)) =
      ({ success := true, warning := some noTechniquesWarning,
         operation_id := some "op-empty", operation_name := some opNoTech.name },
       [], []) :=
  ⟨by decide, no_techniques_short_circuit prngOne defaultConfig 600 [] opNoTech []
      "op-empty" none 7200 (fun _ => (0, 1)) (by decide)⟩

/-! ## Claim C5 -/

/-- C5 counterexample: the cache key is built from the technique-id list in
its given order (`hash(tuple(technique_ids))`, no sorting), so the two
permutations `[T1059, T1078]` and `[T1078, T1059]` of the same technique
set — with identical source name and time window — produce *different*
cache keys, refuting the claim that the key is order-canonicalized and that
the permuted query hits the entry stored by the first one. -/
theorem cache_key_not_order_canonical :
    mkCacheKey "splunk" ["T1059", "T1078"] 0 3600 ≠
      mkCacheKey "splunk" ["T1078", "T1059"] 0 3600 := by
  decide

/-- C5 (amended): for a fixed source name and time window, two queries share
a cache key exactly when their technique-id lists are identical *including
order*: no canonicalization (sorting) of the technique-id set happens before
key construction, so a permuted list produces a different key and does not
hit the entry stored by the first query. -/
theorem cache_key_determined_by_list_order (siemName : String) (st et : ℚ)
    (ids₁ ids₂ : List String) :
    mkCacheKey siemName ids₁ st et = mkCacheKey siemName ids₂ st et ↔
      ids₁ = ids₂ := by
  simp [mkCacheKey, CacheKey.mk.injEq]

/-! ## Claim C9 -/

/-- C9 counterexample: the simulation seed string is
`f"{siem_name}_{start_time.timestamp()}"` — with the backend name (and any
fixed technique set) held constant, two different window starts yield
different seeds, so the seed is *not* derived from the backend name and the
technique set as claimed: the technique set never enters the seed, while the
window start does. -/
theorem simulate_seed_depends_on_window :
    simulateSeed "splunk" 0 ≠ simulateSeed "splunk" 3600 := by
  decide

/-- C9 (amended): the simulation variant is deterministic in the backend
name, the technique-id list and the window *start*: its seed is
`simulateSeed name startTs` — built from the backend name and the window
start timestamp, not from the technique set — and its entire result
(detected-technique list, event count, synthetic event times) is independent
of the window end. -/
theorem simulate_deterministic_in_name_techniques_start (prng : PRNG)
    (techs : List String) (siemName : String) (st et₁ et₂ : ℚ) :
    simulateSiemQuery prng techs siemName st et₁ =
      simulateSiemQuery prng techs siemName st et₂ := rfl

/-! ## Lemmas: cache operations -/

theorem cacheLookup_cacheStore_self (c : Cache) (k : CacheKey) (e : CacheEntry) :
    cacheLookup (cacheStore c k e) k = some e := by
  induction c with
  | nil => simp [cacheStore, cacheLookup]
  | cons hd tl ih =>
    obtain ⟨k', e'⟩ := hd
    by_cases h : k' = k
    · subst h; simp [cacheStore, cacheLookup]
    · simp [cacheStore, cacheLookup, h, ih]

theorem cacheLookup_mem (c : Cache) (k : CacheKey) (e : CacheEntry)
    (h : cacheLookup c k = some e) : (k, e) ∈ c := by
  induction c with
  | nil => simp [cacheLookup] at h
  | cons hd tl ih =>
    obtain ⟨k', e'⟩ := hd
    by_cases hk : k' = k
    · subst hk
      simp [cacheLookup] at h
      simp [h]
    · simp only [cacheLookup, hk, if_false] at h
      exact List.mem_cons_of_mem _ (ih h)

theorem cacheStore_mem (c : Cache) (k : CacheKey) (e : CacheEntry)
    (kv : CacheKey × CacheEntry) (h : kv ∈ cacheStore c k e) :
    kv ∈ c ∨ kv = (k, e) := by
  induction c with
  | nil =>
    simp [cacheStore] at h
    exact Or.inr h
  | cons hd tl ih =>
    obtain ⟨k', e'⟩ := hd
    by_cases hk : k' = k
    · subst hk
      simp only [cacheStore, if_pos rfl] at h
      rcases List.mem_cons.mp h with h1 | h1
      · exact Or.inr h1
      · exact Or.inl (List.mem_cons_of_mem _ h1)
    · simp only [cacheStore, if_neg hk] at h
      rcases List.mem_cons.mp h with h1 | h1
      · exact Or.inl (by simp [h1])
      · rcases ih h1 with h2 | h2
        · exact Or.inl (List.mem_cons_of_mem _ h2)
        · exact Or.inr h2

theorem cacheFresh_sublist (cacheEnabled : Bool) (ttl : ℚ) (c : Cache)
    (siemName : String) (ids : List String) (st et tNow : ℚ)
    (hwf : CacheWF c) (r : SiemQueryResult)
    (h : cacheFresh cacheEnabled ttl c (mkCacheKey siemName ids st et) tNow = some r) :
    List.Sublist r.detected_techniques ids := by
  unfold cacheFresh at h
  cases cacheEnabled with
  | false => simp at h
  | true =>
    simp only [if_true] at h
    cases hl : cacheLookup c (mkCacheKey siemName ids st et) with
    | none => rw [hl] at h; simp at h
    | some entry =>
      rw [hl] at h
      have h' : (if tNow - entry.timestamp < ttl then some entry.result else none) =
          some r := h
      by_cases hf : tNow - entry.timestamp < ttl
      · rw [if_pos hf] at h'
        have hre : entry.result = r := Option.some.inj h'
        subst hre
        exact hwf _ (cacheLookup_mem _ _ _ hl)
      · rw [if_neg hf] at h'
        simp at h'

/-! ## Lemmas: backend detected lists are sublists of the queried ids -/

theorem drawFilter_sublist (rand : Nat → ℚ) (θ : ℚ) (i : Nat) (l : List String) :
    List.Sublist (drawFilter rand θ i l) l := by
  induction l generalizing i with
  | nil => simp [drawFilter]
  | cons a t ih =>
    simp only [drawFilter]
    by_cases h : θ < rand i
    · rw [if_pos h]
      exact List.Sublist.cons₂ a (ih (i + 1))
    · rw [if_neg h]
      exact List.Sublist.cons a (ih (i + 1))

theorem simDrawFilter_sublist (rand : Nat → ℚ) (prob : ℚ) (i : Nat)
    (l : List String) : List.Sublist (simDrawFilter rand prob i l) l := by
  induction l generalizing i with
  | nil => simp [simDrawFilter]
  | cons a t ih =>
    simp only [simDrawFilter]
    cases h : simKeep rand prob i a
    · rw [if_neg (by simp [h])]
      exact List.Sublist.cons a (ih (i + 1))
    · rw [if_pos (by simp [h])]
      exact List.Sublist.cons₂ a (ih (i + 1))

theorem dispatchQuery_sublist (prng : PRNG) (siemName : String)
    (cfg : SiemConfig) (ids : List String) (st et : ℚ) (br : BackendResult)
    (h : dispatchQuery prng siemName cfg ids st et = Except.ok br) :
    List.Sublist br.detected_techniques ids := by
  unfold dispatchQuery at h
  by_cases h1 : cfg.type = "splunk"
  · rw [if_pos h1] at h
    unfold querySplunk at h
    by_cases h2 : cfg.api_endpoint = "" ∨ cfg.token = ""
    · rw [if_pos h2] at h
      cases h
    · rw [if_neg h2] at h
      cases h
      exact drawFilter_sublist _ _ 0 ids
  · rw [if_neg h1] at h
    by_cases h2 : cfg.type = "arcsight"
    · rw [if_pos h2] at h
      cases h
      exact drawFilter_sublist _ _ 0 ids
    · rw [if_neg h2] at h
      by_cases h3 : cfg.type = "elastic"
      · rw [if_pos h3] at h
        cases h
        exact drawFilter_sublist _ _ 0 ids
      · rw [if_neg h3] at h
        by_cases h4 : cfg.type = "qradar"
        · rw [if_pos h4] at h
          cases h
          exact drawFilter_sublist _ _ 0 ids
        · rw [if_neg h4] at h
          cases h
          exact simDrawFilter_sublist _ _ 0 ids

/-! ## Lemmas: `_query_siem_techniques` respects the ids and the invariant -/

theorem querySiemTechniques_sublist_wf (prng : PRNG) (cacheEnabled : Bool)
    (ttl : ℚ) (c : Cache) (siemName : String) (cfg : SiemConfig)
    (ids : List String) (st et t₁ t₂ : ℚ) (hwf : CacheWF c) :
    List.Sublist
      (querySiemTechniques prng cacheEnabled ttl c siemName cfg ids st et t₁ t₂).1.detected_techniques
      ids ∧
    CacheWF (querySiemTechniques prng cacheEnabled ttl c siemName cfg ids st et t₁ t₂).2.1 := by
  unfold querySiemTechniques
  cases hcf : cacheFresh cacheEnabled ttl c (mkCacheKey siemName ids st et) t₁ with
  | some r =>
    exact ⟨cacheFresh_sublist _ _ _ _ _ _ _ _ hwf r hcf, hwf⟩
  | none =>
    cases hd : dispatchQuery prng siemName cfg ids st et with
    | ok br =>
      constructor
      · exact dispatchQuery_sublist _ _ _ _ _ _ _ hd
      · cases cacheEnabled with
        | false => simpa using hwf
        | true =>
          intro kv hkv
          have hkv' : kv ∈ cacheStore c (mkCacheKey siemName ids st et)
              { timestamp := t₂, result := resultOfBackend br (t₂ - t₁) } := hkv
          rcases cacheStore_mem _ _ _ _ hkv' with hm | hm
          · exact hwf _ hm
          · subst hm
            exact dispatchQuery_sublist _ _ _ _ _ _ _ hd
    | error msg =>
      exact ⟨List.nil_sublist ids, hwf⟩

/-! ## Claim C4 -/

/-- C4: with caching enabled, when a call for a given source, technique-id
list and window misses the cache and its backend query succeeds, a second
call with the identical key issued strictly less than the TTL after the
first call stored its result does not invoke the backend again and returns
exactly the first call's result and cache — so across the two calls the
backend ran at most (exactly) once. -/
theorem cache_hit_within_ttl (prng : PRNG) (ttl : ℚ) (c₀ : Cache)
    (siemName : String) (cfg : SiemConfig) (ids : List String)
    (st et t₁ t₁' t₂ t₂' : ℚ) (br : BackendResult)
    (hmiss : cacheFresh true ttl c₀ (mkCacheKey siemName ids st et) t₁ = none)
    (hok : dispatchQuery prng siemName cfg ids st et = Except.ok br)
    (hfresh : t₂ - t₁' < ttl) :
    (querySiemTechniques prng true ttl c₀ siemName cfg ids st et t₁ t₁').2.2 = true ∧
    querySiemTechniques prng true ttl
        (querySiemTechniques prng true ttl c₀ siemName cfg ids st et t₁ t₁').2.1
        siemName cfg ids st et t₂ t₂' =
      ((querySiemTechniques prng true ttl c₀ siemName cfg ids st et t₁ t₁').1,
       (querySiemTechniques prng true ttl c₀ siemName cfg ids st et t₁ t₁').2.1,
       false) := by
  have h1 : querySiemTechniques prng true ttl c₀ siemName cfg ids st et t₁ t₁' =
      (resultOfBackend br (t₁' - t₁),
       cacheStore c₀ (mkCacheKey siemName ids st et)
         { timestamp := t₁', result := resultOfBackend br (t₁' - t₁) }, true) := by
    unfold querySiemTechniques
    rw [hmiss, hok]
    rfl
  rw [h1]
  refine ⟨rfl, ?_⟩
  have h2 : cacheFresh true ttl
      (cacheStore c₀ (mkCacheKey siemName ids st et)
        { timestamp := t₁', result := resultOfBackend br (t₁' - t₁) })
      (mkCacheKey siemName ids st et) t₂ =
      some (resultOfBackend br (t₁' - t₁)) := by
    unfold cacheFresh
    rw [cacheLookup_cacheStore_self]
    simp [hfresh]
  unfold querySiemTechniques
  rw [h2]

/-- Witness for C4: empty initial cache, a simulated-type source (whose
dispatch always succeeds), and a second call one second after the first. -/
theorem cache_hit_within_ttl_witness :
    cacheFresh true 600 [] (mkCacheKey "sim1" ["T1059"] 0 3600) 0 = none ∧
    dispatchQuery prngOne "sim1" scfgSim ["T1059"] 0 3600 =
      Except.ok (simulateSiemQuery prngOne ["T1059"] "sim1" 0 3600) ∧
    (2 : ℚ) - 1 < 600 ∧
    ((querySiemTechniques prngOne true 600 [] "sim1" scfgSim ["T1059"] 0 3600 0 1).2.2 = true ∧
     querySiemTechniques prngOne true 600
         (querySiemTechniques prngOne true 600 [] "sim1" scfgSim ["T1059"] 0 3600 0 1).2.1
         "sim1" scfgSim ["T1059"] 0 3600 2 3 =
       ((querySiemTechniques prngOne true 600 [] "sim1" scfgSim ["T1059"] 0 3600 0 1).1,
        (querySiemTechniques prngOne true 600 [] "sim1" scfgSim ["T1059"] 0 3600 0 1).2.1,
        false)) :=
  ⟨rfl, rfl, by norm_num,
   cache_hit_within_ttl prngOne 600 [] "sim1" scfgSim ["T1059"] 0 3600 0 1 2 3
     (simulateSiemQuery prngOne ["T1059"] "sim1" 0 3600)
     rfl rfl (by norm_num)⟩

/-! ## Claim C10 -/

/-- C10: failed queries are never cached — when the dispatched backend query
raises, `_query_siem_techniques` returns the error dict (empty
`detected_techniques`, zero `events_found`, the error message) with the
cache left unchanged, and a later call with the same key takes the compute
path again (re-invokes the backend) instead of serving a cached error. -/
theorem failed_query_not_cached (prng : PRNG) (ttl : ℚ) (c : Cache)
    (siemName : String) (cfg : SiemConfig) (ids : List String)
    (st et t₁ t₁' t₂ t₂' : ℚ) (msg : String)
    (habsent : cacheLookup c (mkCacheKey siemName ids st et) = none)
    (herr : dispatchQuery prng siemName cfg ids st et = Except.error msg) :
    querySiemTechniques prng true ttl c siemName cfg ids st et t₁ t₁' =
      (errorResult msg (t₁' - t₁), c, true) ∧
    (querySiemTechniques prng true ttl c siemName cfg ids st et t₂ t₂').2.2 = true := by
  have hmiss : ∀ t : ℚ,
      cacheFresh true ttl c (mkCacheKey siemName ids st et) t = none := by
    intro t
    unfold cacheFresh
    rw [habsent]
    simp
  constructor
  · unfold querySiemTechniques
    rw [hmiss t₁, herr]
  · unfold querySiemTechniques
    rw [hmiss t₂, herr]

/-- Witness for C10: a Splunk source with an empty token (its query method
raises `ValueError("Splunk configuration incomplete")`) against an empty
cache. -/
theorem failed_query_not_cached_witness :
    cacheLookup [] (mkCacheKey "splunk" ["T1059"] 0 3600) = none ∧
    dispatchQuery prngOne "splunk" scfgBadSplunk ["T1059"] 0 3600 =
      Except.error "Splunk configuration incomplete" ∧
    (querySiemTechniques prngOne true 600 [] "splunk" scfgBadSplunk ["T1059"]
        0 3600 0 1 =
      (errorResult "Splunk configuration incomplete" (1 - 0), [], true) ∧
     (querySiemTechniques prngOne true 600 [] "splunk" scfgBadSplunk ["T1059"]
        0 3600 2 3).2.2 = true) :=
  ⟨rfl, rfl,
   failed_query_not_cached prngOne 600 [] "splunk" scfgBadSplunk ["T1059"]
     0 3600 0 1 2 3 "Splunk configuration incomplete" rfl rfl⟩

/-! ## Claim C1 -/

/-- C1 (code bug): with three enabled sources of which exactly one — Splunk
with an empty token — raises during querying, `analyze_operation` does
return a report with all three per-source entries and completes without
raising, but the failing source's entry is marked `success: true` with *no*
error message (and empty detections, zero events): `_query_siem_techniques`
swallows the exception into an error dict, so the
`isinstance(result, Exception)` branch of `analyze_operation` — the one that
would set `success: false` with the message — never fires, and the dict's
`error` key is dropped by the success-shaped processing branch.  This
theorem evaluates the embedded code at that failing input. -/
theorem one_failing_source_marked_success :
    ((analyzeOperation prngOne cfgOneFailing 600 [] [opOne] "op-one" none 7200
        (fun _ => (0, 1))).1.siem_results.getD []).map Prod.fst =
      ["splunk", "elastic", "qradar"] ∧
    (((analyzeOperation prngOne cfgOneFailing 600 [] [opOne] "op-one" none 7200
        (fun _ => (0, 1))).1.siem_results.getD []).lookup "splunk").map
        (fun e => (e.success, e.error, e.techniques_detected, e.events_found)) =
      some (true, none, [], 0) ∧
    (((analyzeOperation prngOne cfgOneFailing 600 [] [opOne] "op-one" none 7200
        (fun _ => (0, 1))).1.siem_results.getD []).lookup "elastic").map
        (fun e => (e.success, e.error)) = some (true, none) ∧
    (((analyzeOperation prngOne cfgOneFailing 600 [] [opOne] "op-one" none 7200
        (fun _ => (0, 1))).1.siem_results.getD []).lookup "qradar").map
        (fun e => (e.success, e.error)) = some (true, none) ∧
    (analyzeOperation prngOne cfgOneFailing 600 [] [opOne] "op-one" none 7200
        (fun _ => (0, 1))).1.success = true := by
  exact ⟨rfl, rfl, rfl, rfl, rfl⟩

/-! ## Claim C6 -/

/-- C6 counterexample: a single successful source with detection rate 65% —
inside the claimed 30–70% moderate band — all techniques detected and a
1-second query produces exactly the good-coverage fallback message and no
moderate/review-gaps message: the code's moderate band is `30–<60`, there is
no per-source `≥70%` rule, and no average-detection-latency rule exists at
all (the only timing rule is per-query time `>10`s). -/
theorem moderate_band_not_thirty_to_seventy :
    (30 : ℚ) ≤ 65 ∧ (65 : ℚ) < 70 ∧
    genRecommendations
        [("splunk",
          { success := true, techniques_detected := ["T1059"],
            detection_rate := 65, events_found := 1, query_time := 1 })]
        [("T1059",
          { technique_id := "T1059", full_id := "T1059", name := "n",
            tactics := [], count := 1, ability_used := "",
            ability_description := "", tactic := "", executions := [] })] =
      [goodCoverageMsg] ∧
    modRateMsg "splunk" 65 ≠ goodCoverageMsg := by
  refine ⟨by decide, by decide, rfl, by decide⟩

/-! Lemmas about the recommendation rule blocks. -/

theorem foldl_rateStep_mono (l : List (String × SiemEntry)) (acc : List String)
    (msg : String) (h : msg ∈ acc) : msg ∈ l.foldl rateStep acc := by
  induction l generalizing acc with
  | nil => exact h
  | cons p t ih =>
    rw [List.foldl_cons]
    apply ih
    unfold rateStep
    split_ifs
    · exact List.mem_append_left _ h
    · exact List.mem_append_left _ h
    · exact h

theorem mem_foldl_rateStep_low (l : List (String × SiemEntry)) (name : String)
    (e : SiemEntry) (hrate : e.detection_rate < 30) :
    ∀ acc : List String, (name, e) ∈ l →
      lowRateMsg name e.detection_rate ∈ l.foldl rateStep acc := by
  induction l with
  | nil => intro acc hmem; simp at hmem
  | cons p t ih =>
    intro acc hmem
    rw [List.foldl_cons]
    rcases List.mem_cons.mp hmem with h1 | h1
    · apply foldl_rateStep_mono
      rw [← h1]
      simp [rateStep, hrate]
    · exact ih _ h1

theorem mem_foldl_rateStep_mod (l : List (String × SiemEntry)) (name : String)
    (e : SiemEntry) (h30 : 30 ≤ e.detection_rate) (h60 : e.detection_rate < 60) :
    ∀ acc : List String, (name, e) ∈ l →
      modRateMsg name e.detection_rate ∈ l.foldl rateStep acc := by
  induction l with
  | nil => intro acc hmem; simp at hmem
  | cons p t ih =>
    intro acc hmem
    rw [List.foldl_cons]
    rcases List.mem_cons.mp hmem with h1 | h1
    · apply foldl_rateStep_mono
      rw [← h1]
      simp [rateStep, not_lt.mpr h30, h60]
    · exact ih _ h1

theorem foldl_slowStep_mono (l : List (String × SiemEntry)) (acc : List String)
    (msg : String) (h : msg ∈ acc) : msg ∈ l.foldl slowStep acc := by
  induction l generalizing acc with
  | nil => exact h
  | cons p t ih =>
    rw [List.foldl_cons]
    apply ih
    unfold slowStep
    split_ifs
    · exact List.mem_append_left _ h
    · exact h

theorem mem_foldl_slowStep (l : List (String × SiemEntry)) (name : String)
    (e : SiemEntry) (hq : 10 < e.query_time) :
    ∀ acc : List String, (name, e) ∈ l →
      slowQueryMsg name e.query_time ∈ l.foldl slowStep acc := by
  induction l with
  | nil => intro acc hmem; simp at hmem
  | cons p t ih =>
    intro acc hmem
    rw [List.foldl_cons]
    rcases List.mem_cons.mp hmem with h1 | h1
    · apply foldl_slowStep_mono
      rw [← h1]
      simp [slowStep, hq]
    · exact ih _ h1

theorem genRecommendations_eq_blocks (siemResults : List (String × SiemEntry))
    (techs : List (String × TechDetail))
    (h : siemResults.filter (fun p => p.2.success) ≠ []) :
    genRecommendations siemResults techs =
      (if rateRecs (siemResults.filter fun p => p.2.success) ++
          gapRecs (siemResults.filter fun p => p.2.success) ++
          undetRecs (siemResults.filter fun p => p.2.success) techs ++
          slowRecs (siemResults.filter fun p => p.2.success) = [] then
        [goodCoverageMsg]
      else
        rateRecs (siemResults.filter fun p => p.2.success) ++
        gapRecs (siemResults.filter fun p => p.2.success) ++
        undetRecs (siemResults.filter fun p => p.2.success) techs ++
        slowRecs (siemResults.filter fun p => p.2.success)) := by
  cases siemResults with
  | nil => simp at h
  | cons a l =>
    simp only [genRecommendations]
    rw [if_neg h]

theorem mem_genRecommendations_of_blocks (siemResults : List (String × SiemEntry))
    (techs : List (String × TechDetail)) (msg : String)
    (hsucc : siemResults.filter (fun p => p.2.success) ≠ [])
    (h : msg ∈ rateRecs (siemResults.filter fun p => p.2.success) ++
      gapRecs (siemResults.filter fun p => p.2.success) ++
      undetRecs (siemResults.filter fun p => p.2.success) techs ++
      slowRecs (siemResults.filter fun p => p.2.success)) :
    msg ∈ genRecommendations siemResults techs := by
  rw [genRecommendations_eq_blocks siemResults techs hsucc,
      if_neg (List.ne_nil_of_mem h)]
  exact h

theorem genRecommendations_all_failed (siemResults : List (String × SiemEntry))
    (techs : List (String × TechDetail)) (hne : siemResults ≠ [])
    (hfail : siemResults.filter (fun p => p.2.success) = []) :
    genRecommendations siemResults techs = [allFailedMsg] := by
  cases siemResults with
  | nil => exact absurd rfl hne
  | cons a l =>
    simp only [genRecommendations]
    rw [if_pos hfail]

theorem gapRecs_eq (succ : List (String × SiemEntry)) (b w : String × ℚ)
    (hlen : 1 < succ.length)
    (hb : (sortRatesDesc (succ.map fun p => (p.1, p.2.detection_rate))).head? =
      some b)
    (hw : (sortRatesDesc (succ.map fun p => (p.1, p.2.detection_rate))).getLast? =
      some w)
    (hgap : 30 < b.2 - w.2) :
    gapRecs succ = [gapMsg b.1 b.2 w.1 w.2] := by
  unfold gapRecs
  rw [if_pos hlen]
  simp only [hb, hw]
  rw [if_pos hgap]

theorem undetRecs_total_mem (succ : List (String × SiemEntry))
    (techs : List (String × TechDetail)) (h : undetectedOf succ techs ≠ []) :
    totalUndetectedMsg (undetectedOf succ techs).length ∈ undetRecs succ techs := by
  unfold undetRecs
  rw [if_neg h]
  exact List.mem_append_right _ (by simp)

theorem undetRecs_critical_mem (succ : List (String × SiemEntry))
    (techs : List (String × TechDetail))
    (hcrit : (undetectedOf succ techs).filter
      (fun t => criticalTechs.contains t) ≠ []) :
    criticalMsg ((undetectedOf succ techs).filter
        (fun t => criticalTechs.contains t)) ∈ undetRecs succ techs := by
  have h0 : undetectedOf succ techs ≠ [] := by
    intro he
    apply hcrit
    rw [he]
    rfl
  unfold undetRecs
  rw [if_neg h0, if_neg hcrit]
  exact List.mem_append_left _ (by simp)

/-- C6 (amended): the generator applies, additively and in the source's
fixed order, exactly these rules.  With no configured sources the output is
exactly the configure-a-source message; with sources but no successful one,
exactly the all-queries-failed message.  Per successful source, a rate `<30`
emits the low-coverage/tune-rules message and a rate in `30–<60` the
moderate/review-gaps message (there is no per-source `≥70` rule).  With more
than one successful source, a best-minus-worst rate gap above 30 points
emits the performance-gap message.  Any undetected technique emits the
total-undetected-count message, and additionally the critical-techniques
message when a critical technique (T1003/T1110/T1059) is among the
undetected.  A per-source query time above 10 seconds emits the slow-query
warning (average detection latency is never consulted — no `>3600`s rule
exists).  The good-coverage message appears only as a fallback when no rule
fired; in particular, for a single successful source with every technique
detected and query time at most 10s, the output is exactly the low message
(rate `<30`), the moderate message (`30 ≤ rate < 60`), or the good-coverage
fallback (rate `≥60`). -/
theorem recommendation_rules (siemResults : List (String × SiemEntry))
    (techs : List (String × TechDetail)) :
    (genRecommendations [] techs = [noSiemMsg]) ∧
    (siemResults ≠ [] →
      siemResults.filter (fun p => p.2.success) = [] →
      genRecommendations siemResults techs = [allFailedMsg]) ∧
    (∀ (name : String) (e : SiemEntry),
      (name, e) ∈ siemResults.filter (fun p => p.2.success) →
      e.detection_rate < 30 →
      lowRateMsg name e.detection_rate ∈ genRecommendations siemResults techs) ∧
    (∀ (name : String) (e : SiemEntry),
      (name, e) ∈ siemResults.filter (fun p => p.2.success) →
      30 ≤ e.detection_rate → e.detection_rate < 60 →
      modRateMsg name e.detection_rate ∈ genRecommendations siemResults techs) ∧
    (∀ b w : String × ℚ,
      1 < (siemResults.filter (fun p => p.2.success)).length →
      (sortRatesDesc ((siemResults.filter (fun p => p.2.success)).map
          fun p => (p.1, p.2.detection_rate))).head? = some b →
      (sortRatesDesc ((siemResults.filter (fun p => p.2.success)).map
          fun p => (p.1, p.2.detection_rate))).getLast? = some w →
      30 < b.2 - w.2 →
      gapMsg b.1 b.2 w.1 w.2 ∈ genRecommendations siemResults techs) ∧
    (siemResults.filter (fun p => p.2.success) ≠ [] →
      undetectedOf (siemResults.filter fun p => p.2.success) techs ≠ [] →
      totalUndetectedMsg
          (undetectedOf (siemResults.filter fun p => p.2.success) techs).length ∈
        genRecommendations siemResults techs) ∧
    (siemResults.filter (fun p => p.2.success) ≠ [] →
      (undetectedOf (siemResults.filter fun p => p.2.success) techs).filter
          (fun t => criticalTechs.contains t) ≠ [] →
      criticalMsg ((undetectedOf (siemResults.filter fun p => p.2.success)
            techs).filter (fun t => criticalTechs.contains t)) ∈
        genRecommendations siemResults techs) ∧
    (∀ (name : String) (e : SiemEntry),
      (name, e) ∈ siemResults.filter (fun p => p.2.success) →
      10 < e.query_time →
      slowQueryMsg name e.query_time ∈ genRecommendations siemResults techs) ∧
    (siemResults.filter (fun p => p.2.success) ≠ [] →
      rateRecs (siemResults.filter fun p => p.2.success) = [] →
      gapRecs (siemResults.filter fun p => p.2.success) = [] →
      undetRecs (siemResults.filter fun p => p.2.success) techs = [] →
      slowRecs (siemResults.filter fun p => p.2.success) = [] →
      genRecommendations siemResults techs = [goodCoverageMsg]) ∧
    (∀ (name : String) (rate : ℚ) (e : SiemEntry), e.success = true →
      e.detection_rate = rate → e.query_time ≤ 10 →
      (∀ k ∈ techs.map Prod.fst, e.techniques_detected.contains k = true) →
      genRecommendations [(name, e)] techs =
        (if rate < 30 then [lowRateMsg name rate]
         else if rate < 60 then [modRateMsg name rate]
         else [goodCoverageMsg])) := by
  refine ⟨rfl, ?_, ?_, ?_, ?_, ?_, ?_, ?_, ?_, ?_⟩
  · exact fun hne hfail => genRecommendations_all_failed siemResults techs hne hfail
  · intro name e hmem hrate
    apply mem_genRecommendations_of_blocks siemResults techs _
      (List.ne_nil_of_mem hmem)
    simp only [List.mem_append]
    exact Or.inl (Or.inl (Or.inl (mem_foldl_rateStep_low _ name e hrate [] hmem)))
  · intro name e hmem h30 h60
    apply mem_genRecommendations_of_blocks siemResults techs _
      (List.ne_nil_of_mem hmem)
    simp only [List.mem_append]
    exact Or.inl (Or.inl (Or.inl (mem_foldl_rateStep_mod _ name e h30 h60 [] hmem)))
  · intro b w hlen hb hw hgap
    have hne : siemResults.filter (fun p => p.2.success) ≠ [] := by
      intro he
      rw [he] at hlen
      simp at hlen
    apply mem_genRecommendations_of_blocks siemResults techs _ hne
    simp only [List.mem_append]
    refine Or.inl (Or.inl (Or.inr ?_))
    rw [gapRecs_eq _ b w hlen hb hw hgap]
    simp
  · intro hne hund
    apply mem_genRecommendations_of_blocks siemResults techs _ hne
    simp only [List.mem_append]
    exact Or.inl (Or.inr (undetRecs_total_mem _ techs hund))
  · intro hne hcrit
    apply mem_genRecommendations_of_blocks siemResults techs _ hne
    simp only [List.mem_append]
    exact Or.inl (Or.inr (undetRecs_critical_mem _ techs hcrit))
  · intro name e hmem hq
    apply mem_genRecommendations_of_blocks siemResults techs _
      (List.ne_nil_of_mem hmem)
    simp only [List.mem_append]
    exact Or.inr (mem_foldl_slowStep _ name e hq [] hmem)
  · intro hne h1 h2 h3 h4
    rw [genRecommendations_eq_blocks siemResults techs hne, h1, h2, h3, h4]
    simp
  · intro name rate e hsucc hrate hqt hdet
    have hfilter : [(name, e)].filter (fun p => p.2.success) = [(name, e)] := by
      simp [hsucc]
    have hrr : rateRecs [(name, e)] =
        (if rate < 30 then [lowRateMsg name rate]
         else if rate < 60 then [modRateMsg name rate] else []) := by
      simp only [rateRecs, List.foldl_cons, List.foldl_nil, rateStep, hrate,
        List.nil_append]
    have hgap : gapRecs [(name, e)] = [] := by
      simp [gapRecs]
    have hundet : undetRecs [(name, e)] techs = [] := by
      have h0 : undetectedOf [(name, e)] techs = [] := by
        rw [undetectedOf, List.filter_eq_nil_iff]
        intro k hk
        have hc : k ∈ e.techniques_detected := by simpa using hdet k hk
        simp [allDetectedOf, hc]
      simp [undetRecs, h0]
    have hslow : slowRecs [(name, e)] = [] := by
      simp [slowRecs, slowStep, not_lt.mpr hqt]
    simp only [genRecommendations, hfilter, hrr, hgap, hundet, hslow]
    by_cases h30 : rate < 30
    · simp [h30]
    · by_cases h60 : rate < 60
      · simp [h30, h60, modRateMsg]
      · simp [h30, h60]

/-- Witness for the amended C6: a three-source scenario firing the low-rate,
moderate-rate, gap, critical/total-undetected and slow-query rules at once,
an all-failed scenario, a nothing-fired fallback scenario, and a
single-source rate-65 scenario. -/
theorem recommendation_rules_witness :
    genRecommendations [] techsMixed = [noSiemMsg] ∧
    genRecommendations [("f", entryFailed)] techsMixed = [allFailedMsg] ∧
    lowRateMsg "a" 10 ∈ genRecommendations siemResultsMixed techsMixed ∧
    modRateMsg "m" 40 ∈ genRecommendations siemResultsMixed techsMixed ∧
    gapMsg "b" 80 "a" 10 ∈ genRecommendations siemResultsMixed techsMixed ∧
    totalUndetectedMsg 1 ∈ genRecommendations siemResultsMixed techsMixed ∧
    criticalMsg ["T1003"] ∈ genRecommendations siemResultsMixed techsMixed ∧
    slowQueryMsg "a" 20 ∈ genRecommendations siemResultsMixed techsMixed ∧
    genRecommendations [("b", entryHigh)] techsT1059 = [goodCoverageMsg] ∧
    genRecommendations [("s", entryMid65)] techsMixed =
      (if (65 : ℚ) < 30 then [lowRateMsg "s" 65]
       else if (65 : ℚ) < 60 then [modRateMsg "s" 65]
       else [goodCoverageMsg]) :=
  ⟨(recommendation_rules siemResultsMixed techsMixed).1,
   (recommendation_rules [("f", entryFailed)] techsMixed).2.1
     (by decide) (by decide),
   (recommendation_rules siemResultsMixed techsMixed).2.2.1
     "a" entryLowSlow (by decide) (by decide),
   (recommendation_rules siemResultsMixed techsMixed).2.2.2.1
     "m" entryMid40 (by decide) (by decide) (by decide),
   (recommendation_rules siemResultsMixed techsMixed).2.2.2.2.1
     ("b", 80) ("a", 10) (by decide) (by decide) (by decide) (by norm_num),
   (recommendation_rules siemResultsMixed techsMixed).2.2.2.2.2.1
     (by decide) (by decide),
   (recommendation_rules siemResultsMixed techsMixed).2.2.2.2.2.2.1
     (by decide) (by decide),
   (recommendation_rules siemResultsMixed techsMixed).2.2.2.2.2.2.2.1
     "a" entryLowSlow (by decide) (by decide),
   (recommendation_rules [("b", entryHigh)] techsT1059).2.2.2.2.2.2.2.2.1
     (by decide) (by decide) (by decide) (by decide) (by decide),
   (recommendation_rules siemResultsMixed techsMixed).2.2.2.2.2.2.2.2.2
     "s" 65 entryMid65 rfl rfl (by decide) (by decide)⟩

/-! ## Lemmas: rounding and rate bounds -/

theorem roundHalfEven_nonneg (q : ℚ) (h : 0 ≤ q) : 0 ≤ roundHalfEven q := by
  unfold roundHalfEven
  have hf : (0 : ℤ) ≤ ⌊q⌋ := Int.le_floor.mpr (by exact_mod_cast h)
  split_ifs <;> omega

theorem roundHalfEven_le_int (q : ℚ) (B : ℤ) (h : q ≤ (B : ℚ)) :
    roundHalfEven q ≤ B := by
  have h1 : ⌊q⌋ ≤ B := by
    have := Int.floor_le_floor h
    simpa using this
  unfold roundHalfEven
  split_ifs with h2 h3 h4
  · exact h1
  · have hfl : (⌊q⌋ : ℚ) + 1/2 < q := by linarith
    have hlt : (⌊q⌋ : ℚ) < B := by linarith [Int.floor_le q]
    have : ⌊q⌋ < B := by exact_mod_cast hlt
    omega
  · exact h1
  · have hge : (1 : ℚ)/2 ≤ q - ⌊q⌋ := le_of_not_lt h2
    have hlt : (⌊q⌋ : ℚ) < B := by linarith
    have : ⌊q⌋ < B := by exact_mod_cast hlt
    omega

theorem round2_bounds (q : ℚ) (h0 : 0 ≤ q) (h1 : q ≤ 100) :
    0 ≤ round2 q ∧ round2 q ≤ 100 := by
  unfold round2
  constructor
  · have hn := roundHalfEven_nonneg (q * 100) (by positivity)
    have hq : (0 : ℚ) ≤ (roundHalfEven (q * 100) : ℚ) := by exact_mod_cast hn
    linarith
  · have hle : roundHalfEven (q * 100) ≤ 10000 :=
      roundHalfEven_le_int (q * 100) 10000 (by push_cast; linarith)
    have hq : ((roundHalfEven (q * 100) : ℚ)) ≤ 10000 := by exact_mod_cast hle
    linarith

theorem detectionRate_nonneg_le (detected ids : List String)
    (hlen : detected.length ≤ ids.length) :
    0 ≤ detectionRate detected ids ∧ detectionRate detected ids ≤ 100 := by
  unfold detectionRate
  by_cases h : ids = []
  · simp [h]
  · rw [if_neg h]
    have hpos : (0 : ℚ) < ids.length := by
      have hne : ids.length ≠ 0 := fun hh => h (List.length_eq_zero.mp hh)
      exact_mod_cast Nat.pos_of_ne_zero hne
    have hled : (detected.length : ℚ) ≤ ids.length := by exact_mod_cast hlen
    constructor
    · positivity
    · rw [div_mul_eq_mul_div, div_le_iff₀ hpos]
      nlinarith

theorem mkSiemEntry_rate_bounds (res : SiemQueryResult) (ids : List String)
    (h : List.Sublist res.detected_techniques ids) :
    0 ≤ (mkSiemEntry res ids).detection_rate ∧
      (mkSiemEntry res ids).detection_rate ≤ 100 := by
  have hb := detectionRate_nonneg_le res.detected_techniques ids h.length_le
  exact round2_bounds _ hb.1 hb.2

theorem querySiems_rate_bounds (prng : PRNG) (cacheEnabled : Bool) (ttl : ℚ)
    (ids : List String) (st et : ℚ) (qTimes : String → ℚ × ℚ) :
    ∀ (lst : List (String × SiemConfig)) (c : Cache), CacheWF c →
      ∀ p ∈ (querySiems prng cacheEnabled ttl ids st et qTimes lst c).1,
        0 ≤ p.2.detection_rate ∧ p.2.detection_rate ≤ 100 := by
  intro lst
  induction lst with
  | nil =>
    intro c hwf p hp
    simp [querySiems] at hp
  | cons hd tl ih =>
    intro c hwf p hp
    obtain ⟨nm, scfg⟩ := hd
    have hq := querySiemTechniques_sublist_wf prng cacheEnabled ttl c nm scfg ids
      st et (qTimes nm).1 (qTimes nm).2 hwf
    simp only [querySiems] at hp
    rcases List.mem_cons.mp hp with h1 | h1
    · subst h1
      exact mkSiemEntry_rate_bounds _ ids hq.1
    · exact ih _ hq.2 p h1

/-! ## Claim C7 -/

/-- C7: for every per-source entry of any report produced by
`analyze_operation` (over a well-formed cache), the stored detection rate
lies in `[0, 100]`; and the rate computation returns exactly `0` on an empty
techniques-used list (the guard in the conditional expression — never a
division by zero). -/
theorem detection_rate_in_bounds (prng : PRNG) (config : DmConfig) (ttl : ℚ)
    (cache₀ : Cache) (located : List Operation) (operationId : String)
    (tf : Option Nat) (now : ℚ) (qTimes : String → ℚ × ℚ)
    (hwf : CacheWF cache₀) :
    (∀ p ∈ ((analyzeOperation prng config ttl cache₀ located operationId tf now
        qTimes).1.siem_results.getD []),
      0 ≤ p.2.detection_rate ∧ p.2.detection_rate ≤ 100) ∧
    (∀ detected : List String, detectionRate detected [] = 0) := by
  constructor
  · intro p hp
    cases located with
    | nil => simp [analyzeOperation] at hp
    | cons op rest =>
      by_cases h : extractTechniques op = []
      · simp [analyzeOperation, h] at hp
      · simp only [analyzeOperation, if_neg h, Option.getD_some] at hp
        exact querySiems_rate_bounds prng config.cache_enabled ttl _ _ _ qTimes
          _ cache₀ hwf p hp
  · intro detected
    simp [detectionRate]

/-- Witness for C7: the empty cache is well-formed; instantiated at the
one-failing-source scenario. -/
theorem detection_rate_in_bounds_witness :
    CacheWF [] ∧
    ((∀ p ∈ ((analyzeOperation prngOne cfgOneFailing 600 [] [opOne] "op-one"
        none 7200 (fun _ => (0, 1))).1.siem_results.getD []),
      0 ≤ p.2.detection_rate ∧ p.2.detection_rate ≤ 100) ∧
     (∀ detected : List String, detectionRate detected [] = 0)) :=
  ⟨by simp [CacheWF], detection_rate_in_bounds prngOne cfgOneFailing 600 []
      [opOne] "op-one" none 7200 (fun _ => (0, 1)) (by simp [CacheWF])⟩

/-! ## Claim C8 -/

/-- C8: when no detection source is enabled (and the operation is found with
a nonempty technique set), the report carries an empty per-source results
map, `overall_metrics.average_detection_rate` equal to 0, and a
recommendations list containing exactly the single no-sources-configured
message. -/
theorem no_enabled_sources_report (prng : PRNG) (config : DmConfig) (ttl : ℚ)
    (cache₀ : Cache) (op : Operation) (rest : List Operation)
    (operationId : String) (tf : Option Nat) (now : ℚ) (qTimes : String → ℚ × ℚ)
    (henabled : config.siem_connections.filter (fun p => p.2.enabled) = [])
    (htechs : extractTechniques op ≠ []) :
    ((analyzeOperation prng config ttl cache₀ (op :: rest) operationId tf now
        qTimes).1.siem_results = some []) ∧
    (((analyzeOperation prng config ttl cache₀ (op :: rest) operationId tf now
        qTimes).1.overall_metrics).map OverallMetrics.average_detection_rate =
      some 0) ∧
    ((analyzeOperation prng config ttl cache₀ (op :: rest) operationId tf now
        qTimes).1.recommendations = some [noSiemMsg]) := by
  simp only [analyzeOperation, if_neg htechs, henabled]
  simp [querySiems, calcOverallMetrics, emptyOverallMetrics, genRecommendations]

/-- Witness for C8: the shipped default configuration has all four sources
disabled. -/
theorem no_enabled_sources_report_witness :
    defaultConfig.siem_connections.filter (fun p => p.2.enabled) = [] ∧
    extractTechniques opOne ≠ [] ∧
    (((analyzeOperation prngOne defaultConfig 600 [] [opOne] "op-one" none 7200
        (fun _ => (0, 1))).1.siem_results = some []) ∧
     (((analyzeOperation prngOne defaultConfig 600 [] [opOne] "op-one" none 7200
        (fun _ => (0, 1))).1.overall_metrics).map
          OverallMetrics.average_detection_rate = some 0) ∧
     ((analyzeOperation prngOne defaultConfig 600 [] [opOne] "op-one" none 7200
        (fun _ => (0, 1))).1.recommendations = some [noSiemMsg])) :=
  ⟨by decide, by decide,
   no_enabled_sources_report prngOne defaultConfig 600 [] opOne [] "op-one"
     none 7200 (fun _ => (0, 1)) (by decide) (by decide)⟩

end DetMeter
